import Mathlib

/-
Verification of the PivotPath career-advisor pipeline (src/app.py).

The embedding models the app as pure functions over an explicit artifact
record.  Python floats are modelled exactly as dyadic rationals with IEEE-754
binary64 rounding (round to nearest, ties to even); Python exceptions are
modelled with Except; objects that may be absent are Options.
-/

namespace PivotPath

/-- Python exception classes that matter here: a NameError raised by a call to
an unbound name, and every other exception collapsed to one case. -/
inductive PyExc where
  | nameError
  | other
deriving DecidableEq

/-- Dyadic rational m * 2 ^ e.  Every IEEE-754 binary64 finite value is of this
form, and every intermediate value of the app numeric pipeline (int inputs,
float products) is one as well. -/
structure Dyadic where
  m : ℤ
  e : ℤ
deriving DecidableEq

/-- Bit length of a natural number, with explicit fuel so that the definition
is structural and kernel-reducible.  4096 bits of fuel covers every
significand arising in this development by a wide margin. -/
def bitLenAux : ℕ → ℕ → ℕ
  | 0, _ => 0
  | fuel+1, n => if n = 0 then 0 else bitLenAux fuel (n / 2) + 1

/-- Bit length of a natural number: 0 for 0, and otherwise the position of the
highest set bit plus one. -/
def bitLen (n : ℕ) : ℕ := bitLenAux 4096 n

/-- Round the positive dyadic n * 2 ^ e to 53 significant bits, round to
nearest with ties to even: the IEEE-754 binary64 rounding of a positive value
in the normal range (the only range this file applies it to). -/
def roundPos (n : ℕ) (e : ℤ) : Dyadic :=
  let b := bitLen n
  if b ≤ 53 then ⟨n, e⟩
  else
    let sh := b - 53
    let q := n / 2 ^ sh
    let r := n % 2 ^ sh
    let half := 2 ^ (sh - 1)
    let q' := if half < r then q + 1 else if r < half then q else if q % 2 = 0 then q else q + 1
    ⟨q', e + sh⟩

/-- IEEE-754 binary64 rounding of a dyadic value in the finite normal range,
extended to zero and to negative values by sign symmetry. -/
def roundDouble (a : Dyadic) : Dyadic :=
  if a.m = 0 then ⟨0, 0⟩
  else if 0 ≤ a.m then roundPos a.m.toNat a.e
  else
    let p := roundPos (-a.m).toNat a.e
    ⟨-p.m, p.e⟩

namespace Dyadic

/-- Embed an integer as a dyadic value. -/
def ofInt (n : ℤ) : Dyadic := ⟨n, 0⟩

/-- Embed a natural number as a dyadic value. -/
def ofNat (n : ℕ) : Dyadic := ⟨(n : ℤ), 0⟩

/-- Exact product of two dyadic values. -/
def mul (a b : Dyadic) : Dyadic := ⟨a.m * b.m, a.e + b.e⟩

/-- Exact sum of two dyadic values (align to the smaller exponent). -/
def add (a b : Dyadic) : Dyadic :=
  if a.e ≤ b.e then ⟨a.m + b.m * 2 ^ (b.e - a.e).toNat, a.e⟩
  else ⟨a.m * 2 ^ (a.e - b.e).toNat + b.m, b.e⟩

/-- Truncation toward zero, the behaviour of the Python int() conversion on a
float. -/
def trunc (a : Dyadic) : ℤ :=
  if 0 ≤ a.e then a.m * 2 ^ a.e.toNat else a.m.tdiv (2 ^ (-a.e).toNat)

end Dyadic

/-- Exact dyadic value of the binary64 literal 0.06 appearing in app.py line
391: 0.06 parses to the double 1080863910568919 * 2 ^ (-54). -/
def c006 : Dyadic := ⟨1080863910568919, -54⟩

-- -------------------------
-- Helper: file-safe loading (app.py lines 24-47)
-- -------------------------

/-- Embedding of safe_load_pickle (app.py lines 33-38, the second definition,
which shadows the pickle-based one at lines 24-30): the outcome of the
underlying joblib.load call on the path is the argument; any raised exception
is swallowed and yields None. -/
def safe_load_pickle {α : Type} (loadOutcome : Except PyExc α) : Option α :=
  match loadOutcome with
  | .ok v => some v
  | .error _ => none

/-- Embedding of load_json (app.py lines 41-46): the outcome of opening and
json-decoding the path is the argument; any raised exception is swallowed and
yields None. -/
def load_json {α : Type} (loadOutcome : Except PyExc α) : Option α :=
  match loadOutcome with
  | .ok v => some v
  | .error _ => none

/-- Calling a module-level loader by name: calling a bound loader applies it
(both bound loaders swallow every exception), while calling an unbound name
raises NameError, exactly as in Python. -/
def callLoaderByName {α : Type} (name : String) (loadOutcome : Except PyExc α) :
    Except PyExc (Option α) :=
  if name = "safe_load_pickle" then .ok (safe_load_pickle loadOutcome)
  else if name = "load_json" then .ok (load_json loadOutcome)
  else .error .nameError

-- -------------------------
-- Opaque artifacts and the numeric row type
-- -------------------------

/-- Row of named numeric features, the embedding of the one-row DataFrame the
app builds (insertion-ordered, keys unique for the schemas in use). -/
abbrev Row := List (String × Dyadic)

/-- Opaque categorical encoder artifact: transform as called on a single value
(int(enc.transform([v])[0])), and inverse_transform as called on a single
label (enc.inverse_transform([n])[0]); either may raise. -/
structure Encoder where
  transform : String → Except Unit ℤ
  inverse_transform : ℤ → Except Unit String

/-- Opaque scaler artifact: transform over a full row, which may raise. -/
structure Scaler where
  transform : Row → Except Unit Row

/-- Opaque salary regression model: predict yields the first element of the
prediction, a double, or raises. -/
structure SalaryModel where
  predict : Row → Except Unit Dyadic

/-- Opaque career classifier: predict yields the first element of the
prediction, a numeric class label, or raises. -/
structure CareerModel where
  predict : Row → Except Unit ℤ

/-- The module-level artifact state after loading (app.py lines 52-71):
salary_model, career_model, scaler, the encoders mapping keyed by encoder file
name with the _encoder.pkl suffix stripped, and the two feature schemas. -/
structure Artifacts where
  salary_model : Option SalaryModel
  career_model : Option CareerModel
  scaler : Option Scaler
  encoders : String → Option Encoder
  feat_salary : Option (List String)
  feat_career : Option (List String)

/-- Deserialization outcome of each artifact file, the input to the
module-level loading block. -/
structure RawFiles where
  salaryModelPkl : Except PyExc SalaryModel
  careerModelPkl : Except PyExc CareerModel
  scalerPkl : Except PyExc Scaler
  encoderPkl : String → Except PyExc Encoder
  featSalaryJson : Except PyExc (List String)
  featCareerJson : Except PyExc (List String)

/-- The seven encoder file names iterated over at app.py lines 57-65. -/
def encoderFileNames : List String :=
  ["current_job_title_encoder.pkl",
   "target_job_title_encoder.pkl",
   "education_level_encoder.pkl",
   "portfolio_strength_encoder.pkl",
   "certifications_encoder.pkl",
   "language_proficiency_encoder.pkl",
   "remote_work_preference_encoder.pkl"]

/-- Embedding of the module-level artifact loading block (app.py lines 52-71):
salary and career models through safe_load_pickle; the scaler through
safe_load_pickle with a fallback call to safe_load_joblib when the first
result is falsy (None); each encoder through safe_load_joblib; the two
schemas through load_json.  Calls are by name so that the unbound name
safe_load_joblib raises NameError as it does in Python. -/
def loadArtifacts (fs : RawFiles) : Except PyExc Artifacts := do
  let salary_model ← callLoaderByName "safe_load_pickle" fs.salaryModelPkl
  let career_model ← callLoaderByName "safe_load_pickle" fs.careerModelPkl
  let s1 ← callLoaderByName "safe_load_pickle" fs.scalerPkl
  let scaler ← match s1 with
    | some s => pure (some s)
    | none => callLoaderByName "safe_load_joblib" fs.scalerPkl
  let encList ← encoderFileNames.mapM
    (fun n => callLoaderByName "safe_load_joblib" (fs.encoderPkl n))
  let encPairs := (encoderFileNames.zip encList).filterMap
    (fun p => match p.2 with
      | some enc => some (p.1.replace "_encoder.pkl" "", enc)
      | none => none)
  let feat_salary ← callLoaderByName "load_json" fs.featSalaryJson
  let feat_career ← callLoaderByName "load_json" fs.featCareerJson
  pure { salary_model := salary_model, career_model := career_model,
         scaler := scaler, encoders := fun key => encPairs.lookup key,
         feat_salary := feat_salary, feat_career := feat_career }

-- -------------------------
-- Role static dictionaries (app.py lines 77-165 and 464-535)
-- -------------------------

/-- ROLE_SKILL_GAPS (app.py lines 77-148), key insertion order preserved. -/
def ROLE_SKILL_GAPS : List (String × List String) :=
  [("Data Scientist",
    ["Python (Pandas, NumPy)",
     "SQL & Data querying",
     "Machine Learning fundamentals",
     "Data visualization (Matplotlib/Seaborn)",
     "Model deployment (Flask/Streamlit)"]),
   ("Frontend Engineer",
    ["JavaScript (ES6+)",
     "React fundamentals",
     "HTML/CSS responsive design",
     "Web performance & accessibility",
     "Frontend testing (Jest)"]),
   ("System Administrator",
    ["Linux fundamentals",
     "Shell scripting",
     "Networking basics",
     "Cloud fundamentals (AWS/GCP)",
     "Monitoring & troubleshooting"]),
   ("UI/UX Designer",
    ["Design thinking & user research",
     "Figma/Sketch/Adobe XD",
     "Wireframing & prototyping",
     "Interaction design",
     "Storytelling & presentation"]),
   ("Product Manager",
    ["User research & product discovery",
     "Roadmapping & prioritization",
     "Stakeholder communication",
     "Metrics & experimentation",
     "Basic data analysis"]),
   ("Junior Data Analyst",
    ["Excel & spreadsheets",
     "SQL basics",
     "Data cleaning & EDA",
     "Basic visualization",
     "Presentation skills"]),
   ("Frontend Developer",
    ["HTML/CSS/JS",
     "React or Vue",
     "Component architecture",
     "State management",
     "Testing"]),
   ("Technical Support Engineer",
    ["Troubleshooting fundamentals",
     "Customer communication",
     "Product knowledge",
     "Basic networking",
     "Scripting for automation"]),
   ("Junior UI/UX Designer",
    ["Figma basics",
     "Wireframing",
     "Basic prototyping",
     "Usability heuristics",
     "Design critique"]),
   ("Marketing Analyst",
    ["Excel & Google Sheets",
     "Basic statistics",
     "Data visualization",
     "Marketing analytics tools",
     "Campaign measurement"])]

/-- A suggested course entry: platform, course title, duration. -/
structure Course where
  platform : String
  course : String
  duration : String
deriving DecidableEq

/-- ROLE_COURSES as written literally at app.py lines 150-162, before the
load-time fill. -/
def ROLE_COURSES_initial : List (String × List Course) :=
  [("Data Scientist",
    [⟨"Coursera", "Python for Data Science", "4 weeks"⟩,
     ⟨"Udemy", "Machine Learning Bootcamp", "6 weeks"⟩,
     ⟨"YouTube", "Data Viz with Tableau", "3 weeks"⟩]),
   ("UI/UX Designer",
    [⟨"Coursera", "UI/UX Specialization", "6 weeks"⟩,
     ⟨"YouTube", "Design system tutorials", "2 weeks"⟩,
     ⟨"Udemy", "Figma practical projects", "4 weeks"⟩])]

/-- One step of the load-time fill loop (app.py lines 164-165):
ROLE_COURSES.setdefault(r, ROLE_COURSES.get(r, ROLE_COURSES.get("Data
Scientist"))) inserts the Data Scientist course list under r when r is absent
and leaves the table unchanged when r is present. -/
def coursesFillStep (acc : List (String × List Course)) (r : String) :
    List (String × List Course) :=
  match acc.lookup r with
  | some _ => acc
  | none => acc ++ [(r, (acc.lookup "Data Scientist").getD [])]

/-- ROLE_COURSES after the load-time fill over every ROLE_SKILL_GAPS key
(app.py lines 164-165). -/
def ROLE_COURSES : List (String × List Course) :=
  (ROLE_SKILL_GAPS.map Prod.fst).foldl coursesFillStep ROLE_COURSES_initial

/-- A five-stage roadmap; the fields embed the dict keys Assess, Learn, Build,
Profile and Apply of app.py lines 464-535 in order. -/
structure Roadmap where
  assess : String
  learn : String
  build : String
  profileStage : String
  applyStage : String
deriving DecidableEq

/-- ROLE_ROADMAP (app.py lines 464-535). -/
def ROLE_ROADMAP : List (String × Roadmap) :=
  [("Data Scientist",
    ⟨"Review Python, SQL, portfolio, machine learning basics.",
     "Complete ML courses (Supervised, Unsupervised), Stats, EDA.",
     "Create 4 ML projects — Regression, Classification, NLP, Deployment.",
     "Publish Kaggle notebooks, GitHub repos & LinkedIn posts.",
     "Apply to DS roles, practice ML system design interviews."⟩),
   ("Frontend Engineer",
    ⟨"Evaluate HTML, CSS, JS, React fundamentals.",
     "Master React, Hooks, State mgmt, API integration.",
     "Build 3–5 responsive websites + React apps.",
     "Deploy on Netlify/Vercel, share UI case studies.",
     "Apply with live websites + GitHub portfolio."⟩),
   ("System Administrator",
    ⟨"Check Linux knowledge, shell scripting, networking basics.",
     "Study Linux, Bash, AWS, monitoring tools.",
     "Build server configs, automate tasks, deploy scripts.",
     "Document troubleshooting cases, publish scripts on GitHub.",
     "Apply to SysAdmin/IT roles & take tech support interviews."⟩),
   ("UI/UX Designer",
    ⟨"Evaluate Figma, wireframing, user research skills.",
     "Practice UX case studies, interaction design, heuristics.",
     "Create 3 UI/UX case studies + mobile/web prototypes.",
     "Publish Dribbble/Figma/Behance portfolio.",
     "Apply for UI/UX Intern/Junior roles with strong portfolio."⟩),
   ("Product Manager",
    ⟨"Check communication, research, analytics & docs skills.",
     "Study PRDs, user stories, Agile, prioritization frameworks.",
     "Create 2 product case studies + a product roadmap.",
     "Publish PM case studies & feature breakdowns.",
     "Apply for APM roles, complete PM interview practice."⟩),
   ("Junior Data Analyst",
    ⟨"Assess Excel, SQL, dashboarding skills.",
     "Take courses in SQL, Power BI/Tableau, statistics.",
     "Create 3 dashboards + 2 data cleaning projects.",
     "Upload dashboards to LinkedIn & GitHub.",
     "Apply for Data Analyst Intern/Junior roles."⟩),
   ("Frontend Developer",
    ⟨"Check React, HTML, JS, responsiveness knowledge.",
     "React advanced concepts + CSS frameworks (Tailwind).",
     "Build 4–6 UI clones & dynamic web apps.",
     "Deploy projects, share UI/UX improvements.",
     "Apply with portfolio & GitHub repos."⟩),
   ("Technical Support Engineer",
    ⟨"Assess troubleshooting, communication & software basics.",
     "Study OS basics, networking, ticket systems.",
     "Create documentation tutorials & automation scripts.",
     "Show real scenarios & solutions in resume.",
     "Apply to L1 support roles, practice customer interaction."⟩),
   ("Junior UI/UX Designer",
    ⟨"Check Figma basics, wireframing, UX research understanding.",
     "Learn design principles, layouts, typography.",
     "Make 3 beginner-friendly app/web redesigns.",
     "Publish Behance/Figma case studies.",
     "Apply for entry UI/UX roles."⟩),
   ("Marketing Analyst",
    ⟨"Check analytics tools, Excel, reports knowledge.",
     "Study Google Analytics, basic statistics, dashboards.",
     "Create 3–5 campaign analysis projects.",
     "Publish dashboard snapshots & insights.",
     "Apply for junior marketing/analytics roles."⟩)]

/-- The role enumeration offered by both job selectors (app.py lines 174-175):
list(ROLE_SKILL_GAPS.keys()), without the leading Select sentinel. -/
def roleSelectorRoles : List String := ROLE_SKILL_GAPS.map Prod.fst

/-- Skill-gap lookup (app.py line 449): the entry for the role, with fallback
to the Data Scientist entry.  The Data Scientist key is always present, so the
inner getD default is unreachable. -/
def skillGaps (role : String) : List String :=
  match ROLE_SKILL_GAPS.lookup role with
  | some g => g
  | none => (ROLE_SKILL_GAPS.lookup "Data Scientist").getD []

/-- Course lookup (app.py line 454), with the same fallback shape. -/
def coursesFor (role : String) : List Course :=
  match ROLE_COURSES.lookup role with
  | some c => c
  | none => (ROLE_COURSES.lookup "Data Scientist").getD []

/-- Roadmap lookup (app.py line 538), with the same fallback shape. -/
def roadmapFor (role : String) : Roadmap :=
  match ROLE_ROADMAP.lookup role with
  | some r => r
  | none => (ROLE_ROADMAP.lookup "Data Scientist").getD ⟨"", "", "", "", ""⟩

-- -------------------------
-- Profile input and validation (app.py lines 186-262)
-- -------------------------

/-- The sidebar input state at the moment the user clicks Analyze, named after
the variables of app.py lines 186-206.  The selectbox fields are strings;
years_exp, projects_completed and comm_rating are the integer widgets. -/
structure Profile where
  current_job : String
  target_job : String
  education : String
  portfolio_strength : String
  certifications : String
  language_proficiency : String
  remote_pref : String
  years_exp : ℕ
  projects_completed : ℕ
  comm_rating : ℕ
  skills_text : String
deriving DecidableEq

/-- The validation error list built at app.py lines 242-256.  Note that the
certifications placeholder adds no error: that branch instead rebinds the
certifications variable (see applyCertDefault). -/
def validationErrors (u : Profile) : List String :=
  (if u.current_job = "Select current job" then ["Choose your current job."] else []) ++
  (if u.target_job = "Select target job" then ["Choose your target job."] else []) ++
  (if u.education = "Select education" then ["Select your education level."] else []) ++
  (if u.portfolio_strength = "Select..." then ["Select portfolio strength."] else []) ++
  (if u.language_proficiency = "Select..." then ["Select language proficiency."] else []) ++
  (if u.remote_pref = "Select..." then ["Select remote preference."] else [])

/-- The certifications coercion at app.py lines 251-252: a placeholder
certifications value is silently replaced by the string None. -/
def applyCertDefault (u : Profile) : Profile :=
  if u.certifications = "Select..." then { u with certifications := "None" } else u

-- -------------------------
-- Salary feature row construction (app.py lines 298-354)
-- -------------------------

/-- Resolution of one named salary feature (the if/elif chain of app.py lines
303-353).  Encoder calls are wrapped in try/except and degrade to 0; the three
ordinal maps apply .get with their written defaults; certifications maps to 0
exactly on the string None (the Python None case is unreachable for selectbox
output); the three numeric attributes pass through; anything else is 0. -/
def resolveSalaryFeature (encoders : String → Option Encoder) (p : Profile)
    (feat : String) : Dyadic :=
  if feat = "current_job_title" then
    match encoders "current_job_title" with
    | some enc =>
      match enc.transform p.current_job with
      | .ok v => Dyadic.ofInt v
      | .error _ => Dyadic.ofInt 0
    | none => Dyadic.ofInt 0
  else if feat = "target_job_title" then
    match encoders "target_job_title" with
    | some enc =>
      match enc.transform p.target_job with
      | .ok v => Dyadic.ofInt v
      | .error _ => Dyadic.ofInt 0
    | none => Dyadic.ofInt 0
  else if feat = "education_level" then
    match encoders "education_level" with
    | some enc =>
      match enc.transform p.education with
      | .ok v => Dyadic.ofInt v
      | .error _ => Dyadic.ofInt 0
    | none => Dyadic.ofInt 0
  else if feat = "portfolio_strength" then
    Dyadic.ofInt
      (if p.portfolio_strength = "Low" then 0
       else if p.portfolio_strength = "Medium" then 1
       else if p.portfolio_strength = "High" then 2
       else 1)
  else if feat = "certifications" then
    Dyadic.ofInt (if p.certifications = "None" then 0 else 1)
  else if feat = "language_proficiency" then
    Dyadic.ofInt
      (if p.language_proficiency = "Beginner" then 0
       else if p.language_proficiency = "Intermediate" then 1
       else if p.language_proficiency = "Advanced" then 2
       else 1)
  else if feat = "remote_work_preference" then
    Dyadic.ofInt
      (if p.remote_pref = "Onsite" then 0
       else if p.remote_pref = "Hybrid" then 1
       else if p.remote_pref = "Remote" then 2
       else 0)
  else if feat = "years_of_experience" then Dyadic.ofNat p.years_exp
  else if feat = "projects_completed" then Dyadic.ofNat p.projects_completed
  else if feat = "communication_skills_rating" then Dyadic.ofNat p.comm_rating
  else Dyadic.ofInt 0

/-- The salary feature row X (app.py lines 298-354): one entry per schema
feature in order, skipping the target label column estimated_salary_usd. -/
def buildSalaryRow (encoders : String → Option Encoder) (p : Profile)
    (feats : List String) : Row :=
  (feats.filter (fun f => f ≠ "estimated_salary_usd")).map
    (fun f => (f, resolveSalaryFeature encoders p f))

/-- Best-effort scaling (app.py lines 358-366 and 420-424): when a scaler is
registered its transform is attempted, and any exception leaves the row
unscaled. -/
def applyScalerBestEffort (scaler : Option Scaler) (X : Row) : Row :=
  match scaler with
  | some s =>
    match s.transform X with
    | .ok y => y
    | .error _ => X
  | none => X

/-- The row actually handed to salary_model.predict: the built row after
best-effort scaling. -/
def salaryModelRow (scaler : Option Scaler) (encoders : String → Option Encoder)
    (p : Profile) (feats : List String) : Row :=
  applyScalerBestEffort scaler (buildSalaryRow encoders p feats)

/-- The fixed USD to INR conversion constant of app.py line 370, an exactly
representable double. -/
def USD_TO_INR : Dyadic := ⟨82, 0⟩

/-- The model branch of salary prediction (app.py lines 293-373): requires a
truthy salary_model and a truthy (non-None, non-empty) schema; builds the row,
scales best-effort, predicts, and converts through int(usd * 82.0); any
predict exception yields None. -/
def predictedSalaryInr (salary_model : Option SalaryModel)
    (feat_salary : Option (List String)) (scaler : Option Scaler)
    (encoders : String → Option Encoder) (p : Profile) : Option ℤ :=
  match salary_model, feat_salary with
  | some model, some feats =>
    if feats = [] then none
    else
      match model.predict (salaryModelRow scaler encoders p feats) with
      | .ok usd => some (Dyadic.trunc (roundDouble (usd.mul USD_TO_INR)))
      | .error _ => none
  | _, _ => none

-- -------------------------
-- Heuristic salary fallback (app.py lines 376-391)
-- -------------------------

/-- BASE_BY_ROLE_INR (app.py lines 377-388). -/
def BASE_BY_ROLE_INR : List (String × ℤ) :=
  [("Data Scientist", 900000),
   ("Frontend Engineer", 700000),
   ("System Administrator", 500000),
   ("UI/UX Designer", 600000),
   ("Product Manager", 1000000),
   ("Junior Data Analyst", 350000),
   ("Frontend Developer", 650000),
   ("Technical Support Engineer", 300000),
   ("Junior UI/UX Designer", 350000),
   ("Marketing Analyst", 350000)]

/-- Base salary for the target role, 450000 when the role is not in the table
(app.py line 389). -/
def heuristicBase (target_job : String) : ℤ :=
  (BASE_BY_ROLE_INR.lookup target_job).getD 450000

/-- The double value of the Python expression (1 + k * 0.06) for an integer k:
k converts exactly, the product and the sum each round once. -/
def expMult (k : ℕ) : Dyadic :=
  roundDouble (Dyadic.add ⟨1, 0⟩ (roundDouble (Dyadic.mul ⟨(k : ℤ), 0⟩ c006)))

/-- The experience adjustment of app.py line 391 applied to a base value:
int(base * (1 + min(years, 10) * 0.06)) evaluated in binary64, with the
min already taken. -/
def heuristicAdjusted (base : ℤ) (k : ℕ) : ℤ :=
  Dyadic.trunc (roundDouble (Dyadic.mul ⟨base, 0⟩ (expMult k)))

/-- The heuristic fallback salary (app.py lines 389-391). -/
def heuristicSalary (target_job : String) (years_exp : ℕ) : ℤ :=
  heuristicAdjusted (heuristicBase target_job) (min years_exp 10)

/-- Provenance of a resolved salary: the model branch or the heuristic
fallback. -/
inductive Provenance where
  | modelDerived
  | heuristic
deriving DecidableEq

/-- Full salary resolution (app.py lines 292-394): the model branch when it
produces a value, else the heuristic fallback. -/
def resolveSalary (salary_model : Option SalaryModel)
    (feat_salary : Option (List String)) (scaler : Option Scaler)
    (encoders : String → Option Encoder) (p : Profile) : ℤ × Provenance :=
  match predictedSalaryInr salary_model feat_salary scaler encoders p with
  | some v => (v, .modelDerived)
  | none => (heuristicSalary p.target_job p.years_exp, .heuristic)

-- -------------------------
-- Career suggestion preview (app.py lines 401-441)
-- -------------------------

/-- Value of one career feature (app.py lines 409-418).  The encoder call for
current_job_title is NOT wrapped in its own try/except there, so its exception
propagates to the enclosing handler. -/
def careerFeatureVal (encoders : String → Option Encoder) (p : Profile)
    (feat : String) : Except Unit Dyadic :=
  if feat = "target_job_title" then .ok (Dyadic.ofInt 0)
  else if feat = "current_job_title" then
    match encoders "current_job_title" with
    | some enc => (enc.transform p.current_job).map Dyadic.ofInt
    | none => .ok (Dyadic.ofInt 0)
  else if feat = "years_of_experience" then .ok (Dyadic.ofNat p.years_exp)
  else .ok (Dyadic.ofInt 0)

/-- The career input row Xin (app.py lines 408-419); the first feature whose
resolution raises aborts the row. -/
def buildCareerRow (encoders : String → Option Encoder) (p : Profile)
    (feats : List String) : Except Unit Row :=
  feats.mapM (fun f => (careerFeatureVal encoders p f).map (fun v => (f, v)))

/-- The optional model-preview suggestion (app.py lines 405-441): none encodes
both the em-dash outputs (model missing, or any exception reaching the outer
handler).  When predict succeeds, a registered target_job_title encoder is
asked to inverse-transform the label, and an inverse failure falls back to the
stringified label rather than to no suggestion. -/
def careerSuggestion (career_model : Option CareerModel)
    (feat_career : Option (List String)) (scaler : Option Scaler)
    (encoders : String → Option Encoder) (p : Profile) : Option String :=
  match career_model, feat_career with
  | some model, some feats =>
    if feats = [] then none
    else
      match buildCareerRow encoders p feats with
      | .error _ => none
      | .ok Xin =>
        match model.predict (applyScalerBestEffort scaler Xin) with
        | .error _ => none
        | .ok label =>
          match encoders "target_job_title" with
          | some e =>
            match e.inverse_transform label with
            | .ok s => some s
            | .error _ => some (toString label)
          | none => some (toString label)
  | _, _ => none

/-- The career block output (app.py lines 401-441): the primary recommendation
is the target job echoed back at line 402, before and independent of the model
preview. -/
structure CareerPreview where
  primary : String
  suggestion : Option String
deriving DecidableEq

/-- Career preview assembly. -/
def careerPreview (career_model : Option CareerModel)
    (feat_career : Option (List String)) (scaler : Option Scaler)
    (encoders : String → Option Encoder) (p : Profile) : CareerPreview :=
  ⟨p.target_job, careerSuggestion career_model feat_career scaler encoders p⟩

-- -------------------------
-- Full request pipeline (app.py lines 242-564)
-- -------------------------

/-- Everything the app renders for a validated profile: the salary figure and
its provenance, the echoed primary role, the optional model suggestion, and
the three content lookups. -/
structure AnalysisResult where
  salary : ℤ
  provenance : Provenance
  primaryRole : String
  modelSuggestion : Option String
  gaps : List String
  courses : List Course
  roadmap : Roadmap
deriving DecidableEq

/-- Outcome of one Analyze click: either the validation error list with all
downstream computation suppressed (st.stop at line 262), or the full result
set. -/
inductive AnalysisOutcome where
  | blocked : List String → AnalysisOutcome
  | ok : AnalysisResult → AnalysisOutcome

/-- Whether the outcome stopped at validation. -/
def AnalysisOutcome.isBlocked : AnalysisOutcome → Bool
  | .blocked _ => true
  | .ok _ => false

/-- The result set computed for a validated profile (app.py lines 288-564). -/
def computeResult (a : Artifacts) (p : Profile) : AnalysisResult :=
  let sp := resolveSalary a.salary_model a.feat_salary a.scaler a.encoders p
  { salary := sp.1,
    provenance := sp.2,
    primaryRole := p.target_job,
    modelSuggestion := careerSuggestion a.career_model a.feat_career a.scaler a.encoders p,
    gaps := skillGaps p.target_job,
    courses := coursesFor p.target_job,
    roadmap := roadmapFor p.target_job }

/-- One full pass after the Analyze click (app.py lines 242-564): validate,
stop on errors, else compute everything for the certification-coerced
profile. -/
def runAnalysis (a : Artifacts) (u : Profile) : AnalysisOutcome :=
  let errs := validationErrors u
  if errs = [] then .ok (computeResult a (applyCertDefault u)) else .blocked errs

-- -------------------------
-- Spec-side reference definition for the heuristic formula
-- -------------------------

/-- The experience adjustment as the claim words it, read in exact rational
arithmetic: int(base * (1 + k * 0.06)) with 0.06 the exact rational 6/100, so
base * (100 + 6 * k) / 100 truncated toward zero. -/
def specExactAdjusted (base : ℤ) (k : ℕ) : ℤ :=
  (base * (100 + 6 * (k : ℤ))).tdiv 100

/-- The heuristic salary formula exactly as claimed: base(role) with default
450000, times (1 + min(y, 10) * 0.06) in exact arithmetic, truncated. -/
def specExactHeuristicSalary (target_job : String) (years_exp : ℕ) : ℤ :=
  specExactAdjusted (heuristicBase target_job) (min years_exp 10)

-- -------------------------
-- Concrete objects used by witnesses and counterexamples
-- -------------------------

/-- A fully selected sample profile. -/
def validProfile : Profile :=
  { current_job := "Product Manager", target_job := "Data Scientist",
    education := "MBA", portfolio_strength := "High", certifications := "None",
    language_proficiency := "Advanced", remote_pref := "Remote",
    years_exp := 3, projects_completed := 4, comm_rating := 7,
    skills_text := "SQL" }

/-- A profile with every field selected except certifications, which is left
at its placeholder. -/
def certsPlaceholderProfile : Profile :=
  { validProfile with certifications := "Select..." }

/-- A profile with every selectbox left at its placeholder. -/
def allPlaceholdersProfile : Profile :=
  { current_job := "Select current job", target_job := "Select target job",
    education := "Select education", portfolio_strength := "Select...",
    certifications := "Select...", language_proficiency := "Select...",
    remote_pref := "Select...", years_exp := 0, projects_completed := 0,
    comm_rating := 5, skills_text := "" }

/-- A second fully selected profile, used by the C10 witness. -/
def c10Profile : Profile :=
  { current_job := "Junior Data Analyst", target_job := "Product Manager",
    education := "MBA", portfolio_strength := "Low",
    certifications := "Select...", language_proficiency := "Beginner",
    remote_pref := "Onsite", years_exp := 0, projects_completed := 0,
    comm_rating := 5, skills_text := "" }

/-- The artifact state of a run where no artifact file loaded. -/
def noArtifacts : Artifacts :=
  { salary_model := none, career_model := none, scaler := none,
    encoders := fun _ => none, feat_salary := none, feat_career := none }

/-- A salary model whose predict always raises. -/
def errPredictSalaryModel : SalaryModel := ⟨fun _ => .error ()⟩

/-- A salary model that always predicts the double 1000.0. -/
def constSalaryModel : SalaryModel := ⟨fun _ => .ok ⟨1000, 0⟩⟩

/-- A scaler whose transform always raises. -/
def errScaler : Scaler := ⟨fun _ => .error ()⟩

/-- A career model that always predicts the label 5. -/
def constCareerModel : CareerModel := ⟨fun _ => .ok 5⟩

/-- An encoder whose transform and inverse_transform always raise. -/
def failingInverseEncoder : Encoder := ⟨fun _ => .error (), fun _ => .error ()⟩

/-- An encoder table registering only a target_job_title encoder whose
inverse_transform always raises. -/
def failingInverseEncoders : String → Option Encoder :=
  fun n => if n = "target_job_title" then some failingInverseEncoder else none

/-- An encoder table registering only a current_job_title encoder whose
transform always raises. -/
def witFailingEncoders : String → Option Encoder :=
  fun n => if n = "current_job_title" then some failingInverseEncoder else none

/-- The ten feature names the salary row resolver handles explicitly. -/
def salaryFeatureNames : List String :=
  ["current_job_title", "target_job_title", "education_level",
   "portfolio_strength", "certifications", "language_proficiency",
   "remote_work_preference", "years_of_experience", "projects_completed",
   "communication_skills_rating"]

/-- The nine distinct base salary values reachable through heuristicBase: the
ten table entries (with 350000 three times) plus the 450000 default. -/
def reachableBases : List ℤ :=
  [900000, 700000, 500000, 600000, 1000000, 350000, 650000, 300000, 450000]

/-- Whether all five roadmap stages are non-empty text. -/
def roadmapFilled (r : Roadmap) : Prop :=
  r.assess ≠ "" ∧ r.learn ≠ "" ∧ r.build ≠ "" ∧ r.profileStage ≠ "" ∧ r.applyStage ≠ ""

instance (r : Roadmap) : Decidable (roadmapFilled r) := by
  unfold roadmapFilled
  infer_instance

-- -------------------------
-- Supporting lemmas
-- -------------------------

/-- Every value of heuristicBase is one of the nine reachable bases. -/
lemma heuristicBase_mem (role : String) : heuristicBase role ∈ reachableBases := by
  simp only [heuristicBase, BASE_BY_ROLE_INR, List.lookup]
  repeat' split
  all_goals decide

/-- Enumerated comparison of the binary64 experience adjustment with its
exact-arithmetic reading, over every reachable base and capped experience. -/
lemma adjusted_enum : ∀ b ∈ reachableBases, ∀ k ∈ List.range 11,
    heuristicAdjusted b k = specExactAdjusted b k ∨
      (k = 6 ∧ heuristicAdjusted b k = specExactAdjusted b k - 1) := by decide

/-- Enumerated monotonicity of the binary64 experience adjustment in the
capped experience, over every reachable base. -/
lemma adjusted_mono : ∀ b ∈ reachableBases, ∀ k ∈ List.range 11, ∀ k' ∈ List.range 11,
    k ≤ k' → heuristicAdjusted b k ≤ heuristicAdjusted b k' := by decide

/-- A nonempty validation error list blocks the analysis. -/
lemma isBlocked_of_errors (a : Artifacts) (u : Profile)
    (h : validationErrors u ≠ []) : (runAnalysis a u).isBlocked = true := by
  simp [runAnalysis, h, AnalysisOutcome.isBlocked]

-- -------------------------
-- Claim C1
-- -------------------------

/-- Claim C1: the artifact-loading operation is claimed to return the loaded
artifact or None and never raise.  The code violates this: whatever the
deserialization outcomes of every artifact file, the module-level loading
block raises NameError, because line 66 (and line 55 on the fallback path)
calls safe_load_joblib, a name never bound in the module. -/
theorem loadArtifacts_always_raises_nameError (fs : RawFiles) :
    loadArtifacts fs = Except.error PyExc.nameError := by
  obtain ⟨f1, f2, f3, f4, f5, f6⟩ := fs
  cases f3 <;> rfl

-- -------------------------
-- Claim C2
-- -------------------------

/-- Claim C2: salary resolution ends in exactly one of the two terminal
states; with no model or no schema it is the heuristic state with the
heuristic value; and when the model's predict raises on its actual input the
result equals the resolution with no model at all. -/
theorem salary_resolution_contract (sm : Option SalaryModel)
    (fs : Option (List String)) (sc : Option Scaler)
    (enc : String → Option Encoder) (p : Profile) :
    ((resolveSalary sm fs sc enc p).2 = Provenance.modelDerived ∨
      (resolveSalary sm fs sc enc p).2 = Provenance.heuristic)
  ∧ ((resolveSalary sm fs sc enc p).2 = Provenance.heuristic →
      (resolveSalary sm fs sc enc p).1 = heuristicSalary p.target_job p.years_exp)
  ∧ ((sm = none ∨ fs = none) →
      resolveSalary sm fs sc enc p
        = (heuristicSalary p.target_job p.years_exp, Provenance.heuristic))
  ∧ (∀ model feats, sm = some model → fs = some feats →
      model.predict (salaryModelRow sc enc p feats) = Except.error () →
      resolveSalary sm fs sc enc p = resolveSalary none fs sc enc p) := by
  refine ⟨?_, ?_, ?_, ?_⟩
  · cases h : predictedSalaryInr sm fs sc enc p <;> simp [resolveSalary, h]
  · cases h : predictedSalaryInr sm fs sc enc p <;> simp [resolveSalary, h]
  · rintro (rfl | rfl)
    · cases fs <;> rfl
    · cases sm <;> rfl
  · rintro model feats rfl rfl hp
    by_cases hf : feats = []
    · subst hf; rfl
    · simp [resolveSalary, predictedSalaryInr, hf, hp]

/-- Witness for C2 at concrete inputs: a model whose predict raises yields
exactly the no-model resolution, and the no-model resolution is the
heuristic state. -/
theorem salary_resolution_contract_witness :
    (resolveSalary (some errPredictSalaryModel) (some ["years_of_experience"])
        none (fun _ => none) validProfile
      = resolveSalary none (some ["years_of_experience"]) none (fun _ => none) validProfile)
  ∧ (resolveSalary none (some ["years_of_experience"]) none (fun _ => none) validProfile
      = (heuristicSalary "Data Scientist" 3, Provenance.heuristic)) :=
  ⟨(salary_resolution_contract (some errPredictSalaryModel) (some ["years_of_experience"])
      none (fun _ => none) validProfile).2.2.2 errPredictSalaryModel
      ["years_of_experience"] rfl rfl rfl,
   (salary_resolution_contract none (some ["years_of_experience"])
      none (fun _ => none) validProfile).2.2.1 (Or.inl rfl)⟩

-- -------------------------
-- Claim C3
-- -------------------------

/-- Counterexample to C3 as stated: for Product Manager with 6 years of
experience the code computes 1359999, one rupee below the exact-arithmetic
value int(1000000 * (1 + 6 * 0.06)) = 1360000, because the double
1 + 6 * 0.06 is slightly below 1.36. -/
theorem heuristic_salary_exact_formula_counterexample :
    heuristicSalary "Product Manager" 6 = 1359999
  ∧ specExactHeuristicSalary "Product Manager" 6 = 1360000
  ∧ heuristicSalary "Product Manager" 6 ≠ specExactHeuristicSalary "Product Manager" 6 := by
  decide

/-- Claim C3 amended: the heuristic salary is the claimed formula evaluated in
binary64 arithmetic, which agrees with the exact-arithmetic formula except
when the capped experience is exactly 6, where the result can be one rupee
lower; the base defaults to 450000 for roles outside the table; and the
Product Manager scenario at 10 years gives exactly 1600000. -/
theorem heuristic_salary_formula :
    (∀ (role : String) (y : ℕ),
      heuristicSalary role y = specExactHeuristicSalary role y ∨
        (min y 10 = 6 ∧ heuristicSalary role y = specExactHeuristicSalary role y - 1))
  ∧ (∀ role : String, BASE_BY_ROLE_INR.lookup role = none → heuristicBase role = 450000)
  ∧ heuristicSalary "Product Manager" 10 = 1600000 := by
  refine ⟨?_, ?_, by decide⟩
  · intro role y
    have hb := heuristicBase_mem role
    have hk : min y 10 ∈ List.range 11 := by
      simp only [List.mem_range]
      exact Nat.lt_succ_of_le (Nat.min_le_right y 10)
    exact adjusted_enum (heuristicBase role) hb (min y 10) hk
  · intro role h
    simp [heuristicBase, h]

/-- Witness for C3 amended at a concrete unknown role: the lookup misses and
the base defaults to 450000. -/
theorem heuristic_salary_formula_witness :
    BASE_BY_ROLE_INR.lookup "Astronaut" = none ∧ heuristicBase "Astronaut" = 450000 :=
  ⟨by decide, heuristic_salary_formula.2.1 "Astronaut" (by decide)⟩


-- -------------------------
-- Claim C4
-- -------------------------

/-- Counterexample to C4 as stated: certifications is listed among the
required fields, yet a profile leaving only certifications at its placeholder
produces an empty error list and is not blocked — downstream computation
proceeds. -/
theorem validation_certifications_counterexample :
    certsPlaceholderProfile.certifications = "Select..."
  ∧ validationErrors certsPlaceholderProfile = []
  ∧ (runAnalysis noArtifacts certsPlaceholderProfile).isBlocked = false := by
  decide

/-- Claim C4 amended: for each of the six reported required fields (current
job, target job, education, portfolio strength, language proficiency, remote
preference), leaving it at its placeholder puts its message in the error list
and blocks all downstream computation; the certifications placeholder is not
reported but silently coerced to the string None. -/
theorem validation_reports_required_fields (a : Artifacts) (u : Profile) :
    (u.current_job = "Select current job" →
      "Choose your current job." ∈ validationErrors u ∧ (runAnalysis a u).isBlocked = true)
  ∧ (u.target_job = "Select target job" →
      "Choose your target job." ∈ validationErrors u ∧ (runAnalysis a u).isBlocked = true)
  ∧ (u.education = "Select education" →
      "Select your education level." ∈ validationErrors u ∧ (runAnalysis a u).isBlocked = true)
  ∧ (u.portfolio_strength = "Select..." →
      "Select portfolio strength." ∈ validationErrors u ∧ (runAnalysis a u).isBlocked = true)
  ∧ (u.language_proficiency = "Select..." →
      "Select language proficiency." ∈ validationErrors u ∧ (runAnalysis a u).isBlocked = true)
  ∧ (u.remote_pref = "Select..." →
      "Select remote preference." ∈ validationErrors u ∧ (runAnalysis a u).isBlocked = true) := by
  refine ⟨fun h => ⟨?_, ?_⟩, fun h => ⟨?_, ?_⟩, fun h => ⟨?_, ?_⟩,
          fun h => ⟨?_, ?_⟩, fun h => ⟨?_, ?_⟩, fun h => ⟨?_, ?_⟩⟩
  all_goals
    first
    | simp [validationErrors, h]
    | exact isBlocked_of_errors a u (by simp [validationErrors, h])

/-- Witness for C4 amended: the all-placeholder profile triggers all six
messages and is blocked. -/
theorem validation_reports_required_fields_witness :
    ("Choose your current job." ∈ validationErrors allPlaceholdersProfile
      ∧ (runAnalysis noArtifacts allPlaceholdersProfile).isBlocked = true)
  ∧ ("Choose your target job." ∈ validationErrors allPlaceholdersProfile
      ∧ (runAnalysis noArtifacts allPlaceholdersProfile).isBlocked = true)
  ∧ ("Select your education level." ∈ validationErrors allPlaceholdersProfile
      ∧ (runAnalysis noArtifacts allPlaceholdersProfile).isBlocked = true)
  ∧ ("Select portfolio strength." ∈ validationErrors allPlaceholdersProfile
      ∧ (runAnalysis noArtifacts allPlaceholdersProfile).isBlocked = true)
  ∧ ("Select language proficiency." ∈ validationErrors allPlaceholdersProfile
      ∧ (runAnalysis noArtifacts allPlaceholdersProfile).isBlocked = true)
  ∧ ("Select remote preference." ∈ validationErrors allPlaceholdersProfile
      ∧ (runAnalysis noArtifacts allPlaceholdersProfile).isBlocked = true) := by
  obtain ⟨w1, w2, w3, w4, w5, w6⟩ :=
    validation_reports_required_fields noArtifacts allPlaceholdersProfile
  exact ⟨w1 rfl, w2 rfl, w3 rfl, w4 rfl, w5 rfl, w6 rfl⟩

-- -------------------------
-- Claim C7
-- -------------------------

/-- Claim C7: the heuristic salary is monotonically non-decreasing in years of
experience and constant at or beyond the 10-year cap, for every role. -/
theorem heuristic_salary_monotone_capped :
    (∀ (role : String) (y y' : ℕ), y ≤ y' →
      heuristicSalary role y ≤ heuristicSalary role y')
  ∧ (∀ (role : String) (y : ℕ), 10 ≤ y →
      heuristicSalary role y = heuristicSalary role 10) := by
  constructor
  · intro role y y' h
    have hb := heuristicBase_mem role
    have hk : min y 10 ∈ List.range 11 := by
      simp only [List.mem_range]
      exact Nat.lt_succ_of_le (Nat.min_le_right y 10)
    have hk' : min y' 10 ∈ List.range 11 := by
      simp only [List.mem_range]
      exact Nat.lt_succ_of_le (Nat.min_le_right y' 10)
    exact adjusted_mono (heuristicBase role) hb (min y 10) hk (min y' 10) hk'
      (min_le_min h (le_refl 10))
  · intro role y h
    unfold heuristicSalary
    rw [Nat.min_eq_right h, Nat.min_self]

/-- Witness for C7 at concrete inputs: ten and fifteen years coincide, and
three years is at most seven years, for sample roles. -/
theorem heuristic_salary_monotone_capped_witness :
    heuristicSalary "Data Scientist" 15 = heuristicSalary "Data Scientist" 10
  ∧ heuristicSalary "Product Manager" 3 ≤ heuristicSalary "Product Manager" 7 :=
  ⟨heuristic_salary_monotone_capped.2 "Data Scientist" 15 (by decide),
   heuristic_salary_monotone_capped.1 "Product Manager" 3 7 (by decide)⟩

-- -------------------------
-- Claim C8
-- -------------------------

/-- Claim C8: with model and schema present and a registered scaler whose
transform raises, resolution proceeds with the unscaled row and the result is
the model prediction on that row converted by the fixed constant 82, in the
model-derived terminal state. -/
theorem scaler_failure_uses_unscaled_row (model : SalaryModel)
    (feats : List String) (s : Scaler) (enc : String → Option Encoder)
    (p : Profile) (q : Dyadic) (hne : feats ≠ [])
    (hs : s.transform (buildSalaryRow enc p feats) = Except.error ())
    (hp : model.predict (buildSalaryRow enc p feats) = Except.ok q) :
    resolveSalary (some model) (some feats) (some s) enc p
      = (Dyadic.trunc (roundDouble (q.mul USD_TO_INR)), Provenance.modelDerived) := by
  simp [resolveSalary, predictedSalaryInr, salaryModelRow, applyScalerBestEffort,
    hne, hs, hp]

/-- Witness for C8 at concrete inputs: a failing scaler together with a model
predicting the double 1000.0 yields 82000 model-derived. -/
theorem scaler_failure_uses_unscaled_row_witness :
    resolveSalary (some constSalaryModel) (some ["years_of_experience"])
      (some errScaler) (fun _ => none) validProfile
      = (82000, Provenance.modelDerived) := by
  have h := scaler_failure_uses_unscaled_row constSalaryModel
    ["years_of_experience"] errScaler (fun _ => none) validProfile
    ⟨1000, 0⟩ (by decide) rfl rfl
  rw [h]
  decide

-- -------------------------
-- Claim C9
-- -------------------------

/-- Claim C9: every role of the role selector has an entry in all three
content tables after the load-time fill, and every lookup returns non-empty
deterministic content, with the Data Scientist fallback for roles absent from
a table. -/
theorem role_content_total_with_fallback :
    (∀ role ∈ roleSelectorRoles,
      (ROLE_SKILL_GAPS.lookup role).isSome = true
      ∧ (ROLE_COURSES.lookup role).isSome = true
      ∧ (ROLE_ROADMAP.lookup role).isSome = true
      ∧ skillGaps role ≠ []
      ∧ coursesFor role ≠ []
      ∧ roadmapFilled (roadmapFor role))
  ∧ (∀ role, ROLE_SKILL_GAPS.lookup role = none →
      skillGaps role = skillGaps "Data Scientist")
  ∧ (∀ role, ROLE_COURSES.lookup role = none →
      coursesFor role = coursesFor "Data Scientist")
  ∧ (∀ role, ROLE_ROADMAP.lookup role = none →
      roadmapFor role = roadmapFor "Data Scientist") := by
  refine ⟨by decide, ?_, ?_, ?_⟩
  · intro role h
    unfold skillGaps
    rw [h]
    decide
  · intro role h
    unfold coursesFor
    rw [h]
    decide
  · intro role h
    unfold roadmapFor
    rw [h]
    decide

/-- Witness for C9 at concrete roles: a selector role with non-empty gaps, and
an unknown role falling back to the Data Scientist content. -/
theorem role_content_total_with_fallback_witness :
    skillGaps "Product Manager" ≠ []
  ∧ skillGaps "Blacksmith" = skillGaps "Data Scientist" :=
  ⟨(role_content_total_with_fallback.1 "Product Manager" (by decide)).2.2.2.1,
   role_content_total_with_fallback.2.1 "Blacksmith" (by decide)⟩


-- -------------------------
-- Claim C5
-- -------------------------

/-- Claim C5: the salary feature row contains exactly the schema features
minus the skipped target label column, every value is numeric and produced by
the per-feature resolver — encoder failures and unknown features give 0, the
three ordinal maps apply with their written defaults, certifications is 1
exactly when the value is not the string None, and the numeric attributes pass
through verbatim.  The builder is a total function: it cannot raise. -/
theorem feature_row_contract (enc : String → Option Encoder) (p : Profile)
    (feats : List String) :
    (feats.Nodup → (buildSalaryRow enc p feats).map Prod.fst
        = feats.filter (fun f => f ≠ "estimated_salary_usd"))
  ∧ (∀ f ∈ feats, f ≠ "estimated_salary_usd" →
      (f, resolveSalaryFeature enc p f) ∈ buildSalaryRow enc p feats)
  ∧ (∀ e, enc "current_job_title" = some e → e.transform p.current_job = Except.error () →
      resolveSalaryFeature enc p "current_job_title" = Dyadic.ofInt 0)
  ∧ (∀ e, enc "target_job_title" = some e → e.transform p.target_job = Except.error () →
      resolveSalaryFeature enc p "target_job_title" = Dyadic.ofInt 0)
  ∧ (∀ e, enc "education_level" = some e → e.transform p.education = Except.error () →
      resolveSalaryFeature enc p "education_level" = Dyadic.ofInt 0)
  ∧ ((p.portfolio_strength = "Low" →
        resolveSalaryFeature enc p "portfolio_strength" = Dyadic.ofInt 0)
     ∧ (p.portfolio_strength = "Medium" →
        resolveSalaryFeature enc p "portfolio_strength" = Dyadic.ofInt 1)
     ∧ (p.portfolio_strength = "High" →
        resolveSalaryFeature enc p "portfolio_strength" = Dyadic.ofInt 2)
     ∧ (p.portfolio_strength ∉ (["Low", "Medium", "High"] : List String) →
        resolveSalaryFeature enc p "portfolio_strength" = Dyadic.ofInt 1))
  ∧ ((p.language_proficiency = "Beginner" →
        resolveSalaryFeature enc p "language_proficiency" = Dyadic.ofInt 0)
     ∧ (p.language_proficiency = "Intermediate" →
        resolveSalaryFeature enc p "language_proficiency" = Dyadic.ofInt 1)
     ∧ (p.language_proficiency = "Advanced" →
        resolveSalaryFeature enc p "language_proficiency" = Dyadic.ofInt 2)
     ∧ (p.language_proficiency ∉ (["Beginner", "Intermediate", "Advanced"] : List String) →
        resolveSalaryFeature enc p "language_proficiency" = Dyadic.ofInt 1))
  ∧ ((p.remote_pref = "Onsite" →
        resolveSalaryFeature enc p "remote_work_preference" = Dyadic.ofInt 0)
     ∧ (p.remote_pref = "Hybrid" →
        resolveSalaryFeature enc p "remote_work_preference" = Dyadic.ofInt 1)
     ∧ (p.remote_pref = "Remote" →
        resolveSalaryFeature enc p "remote_work_preference" = Dyadic.ofInt 2)
     ∧ (p.remote_pref ∉ (["Onsite", "Hybrid", "Remote"] : List String) →
        resolveSalaryFeature enc p "remote_work_preference" = Dyadic.ofInt 0))
  ∧ ((resolveSalaryFeature enc p "certifications" = Dyadic.ofInt 1 ↔
        p.certifications ≠ "None")
     ∧ (resolveSalaryFeature enc p "certifications" = Dyadic.ofInt 0 ↔
        p.certifications = "None"))
  ∧ (resolveSalaryFeature enc p "years_of_experience" = Dyadic.ofNat p.years_exp
     ∧ resolveSalaryFeature enc p "projects_completed" = Dyadic.ofNat p.projects_completed
     ∧ resolveSalaryFeature enc p "communication_skills_rating" = Dyadic.ofNat p.comm_rating)
  ∧ (∀ f, f ∉ salaryFeatureNames → resolveSalaryFeature enc p f = Dyadic.ofInt 0) := by
  refine ⟨?_, ?_, ?_, ?_, ?_, ⟨?_, ?_, ?_, ?_⟩, ⟨?_, ?_, ?_, ?_⟩, ⟨?_, ?_, ?_, ?_⟩,
    ⟨?_, ?_⟩, ⟨rfl, rfl, rfl⟩, ?_⟩
  · intro _
    have h : ∀ l : List String,
        (l.map (fun f => (f, resolveSalaryFeature enc p f))).map Prod.fst = l := by
      intro l
      induction l with
      | nil => rfl
      | cons a t ih => simp [ih]
    simpa [buildSalaryRow] using h _
  · intro f hf hne
    simp only [buildSalaryRow, List.mem_map]
    exact ⟨f, List.mem_filter.2 ⟨hf, by simp [hne]⟩, rfl⟩
  · intro e he ht
    simp [resolveSalaryFeature, he, ht]
  · intro e he ht
    simp [resolveSalaryFeature, he, ht]
  · intro e he ht
    simp [resolveSalaryFeature, he, ht]
  · intro h
    simp [resolveSalaryFeature, h]
  · intro h
    simp [resolveSalaryFeature, h]
  · intro h
    simp [resolveSalaryFeature, h]
  · intro h
    simp only [List.mem_cons, List.not_mem_nil, or_false, not_or] at h
    obtain ⟨n1, n2, n3⟩ := h
    simp [resolveSalaryFeature, n1, n2, n3]
  · intro h
    simp [resolveSalaryFeature, h]
  · intro h
    simp [resolveSalaryFeature, h]
  · intro h
    simp [resolveSalaryFeature, h]
  · intro h
    simp only [List.mem_cons, List.not_mem_nil, or_false, not_or] at h
    obtain ⟨n1, n2, n3⟩ := h
    simp [resolveSalaryFeature, n1, n2, n3]
  · intro h
    simp [resolveSalaryFeature, h]
  · intro h
    simp [resolveSalaryFeature, h]
  · intro h
    simp [resolveSalaryFeature, h]
  · intro h
    simp only [List.mem_cons, List.not_mem_nil, or_false, not_or] at h
    obtain ⟨n1, n2, n3⟩ := h
    simp [resolveSalaryFeature, n1, n2, n3]
  · by_cases hc : p.certifications = "None" <;>
      simp [resolveSalaryFeature, hc, Dyadic.ofInt]
  · by_cases hc : p.certifications = "None" <;>
      simp [resolveSalaryFeature, hc, Dyadic.ofInt]
  · intro f hm
    simp only [salaryFeatureNames, List.mem_cons, List.not_mem_nil, or_false, not_or] at hm
    obtain ⟨m1, m2, m3, m4, m5, m6, m7, m8, m9, m10⟩ := hm
    simp [resolveSalaryFeature, m1, m2, m3, m4, m5, m6, m7, m8, m9, m10]

/-- Witness for C5 at concrete inputs: a schema with the skipped target column,
a failing current_job_title encoder, a concrete ordinal value, and an unknown
engineered feature. -/
theorem feature_row_contract_witness :
    ((buildSalaryRow witFailingEncoders validProfile
        ["years_of_experience", "estimated_salary_usd", "certifications"]).map Prod.fst
      = ["years_of_experience", "certifications"])
  ∧ resolveSalaryFeature witFailingEncoders validProfile "current_job_title" = Dyadic.ofInt 0
  ∧ resolveSalaryFeature witFailingEncoders validProfile "portfolio_strength" = Dyadic.ofInt 2
  ∧ resolveSalaryFeature witFailingEncoders validProfile "engineered_extra" = Dyadic.ofInt 0 := by
  obtain ⟨keys, _, encFail, _, _, pf, _, _, _, _, unknown⟩ :=
    feature_row_contract witFailingEncoders validProfile
      ["years_of_experience", "estimated_salary_usd", "certifications"]
  refine ⟨(keys (by decide)).trans (by decide), ?_, pf.2.2.1 rfl, unknown "engineered_extra" (by decide)⟩
  exact encFail failingInverseEncoder rfl rfl

-- -------------------------
-- Claim C6
-- -------------------------

/-- Counterexample to C6 as stated: with a registered target_job_title encoder
whose inverse_transform raises, the inverse label decoding stage fails, yet
the preview shows the stringified raw label 5 instead of the no-suggestion
result. -/
theorem career_preview_inverse_counterexample :
    failingInverseEncoder.inverse_transform 5 = Except.error ()
  ∧ careerSuggestion (some constCareerModel) (some ["years_of_experience"]) none
      failingInverseEncoders validProfile = some "5"
  ∧ some "5" ≠ (none : Option String) := by
  refine ⟨rfl, ?_, by decide⟩
  decide

/-- Claim C6 amended: the primary recommended role is always the target role
the user chose, whatever the model does; a failure in career row building or
in model predict yields the no-suggestion result; but a scaling failure
proceeds with the unscaled row, and an inverse-decoding failure falls back to
the stringified raw label rather than to no suggestion. -/
theorem career_preview_contract (cm : Option CareerModel)
    (fc : Option (List String)) (sc : Option Scaler)
    (enc : String → Option Encoder) (p : Profile) :
    (careerPreview cm fc sc enc p).primary = p.target_job
  ∧ (∀ model feats, cm = some model → fc = some feats →
      buildCareerRow enc p feats = Except.error () →
      careerSuggestion cm fc sc enc p = none)
  ∧ (∀ model feats Xin, cm = some model → fc = some feats →
      buildCareerRow enc p feats = Except.ok Xin →
      model.predict (applyScalerBestEffort sc Xin) = Except.error () →
      careerSuggestion cm fc sc enc p = none)
  ∧ (∀ model feats Xin label e, cm = some model → fc = some feats → feats ≠ [] →
      buildCareerRow enc p feats = Except.ok Xin →
      model.predict (applyScalerBestEffort sc Xin) = Except.ok label →
      enc "target_job_title" = some e →
      e.inverse_transform label = Except.error () →
      careerSuggestion cm fc sc enc p = some (toString label))
  ∧ (∀ s, sc = some s → (∀ row, s.transform row = Except.error ()) →
      careerSuggestion cm fc sc enc p = careerSuggestion cm fc none enc p) := by
  refine ⟨rfl, ?_, ?_, ?_, ?_⟩
  · rintro model feats rfl rfl hb
    by_cases hf : feats = []
    · subst hf
      rw [show buildCareerRow enc p [] = Except.ok [] from rfl] at hb
      exact Except.noConfusion hb
    · simp [careerSuggestion, hf, hb]
  · rintro model feats Xin rfl rfl hb hp
    by_cases hf : feats = []
    · simp [careerSuggestion, hf]
    · simp [careerSuggestion, hf, hb, hp]
  · rintro model feats Xin label e rfl rfl hf hb hp he hi
    simp [careerSuggestion, hf, hb, hp, he, hi]
  · rintro s rfl hfail
    cases cm <;> cases fc <;> simp [careerSuggestion, applyScalerBestEffort, hfail]

/-- Witness for C6 amended at concrete inputs: the inverse-decoding fallback
produces the stringified label. -/
theorem career_preview_contract_witness :
    careerSuggestion (some constCareerModel) (some ["years_of_experience"]) none
      failingInverseEncoders validProfile = some (toString (5 : ℤ)) :=
  (career_preview_contract (some constCareerModel) (some ["years_of_experience"]) none
      failingInverseEncoders validProfile).2.2.2.1 constCareerModel
    ["years_of_experience"] [("years_of_experience", Dyadic.ofNat 3)] 5
    failingInverseEncoder rfl rfl (by decide) rfl rfl rfl rfl

-- -------------------------
-- Claim C10
-- -------------------------

/-- Claim C10: a certifications field left at its placeholder is not reported
by validation; it is silently coerced to the string None, processing proceeds
when all other required fields are chosen, and the certifications feature then
resolves to 0 in any feature row. -/
theorem certifications_placeholder_accepted (a : Artifacts) (u : Profile)
    (hc : u.certifications = "Select...")
    (h1 : u.current_job ≠ "Select current job")
    (h2 : u.target_job ≠ "Select target job")
    (h3 : u.education ≠ "Select education")
    (h4 : u.portfolio_strength ≠ "Select...")
    (h5 : u.language_proficiency ≠ "Select...")
    (h6 : u.remote_pref ≠ "Select...") :
    validationErrors u = []
  ∧ (applyCertDefault u).certifications = "None"
  ∧ runAnalysis a u = AnalysisOutcome.ok (computeResult a (applyCertDefault u))
  ∧ (∀ enc, resolveSalaryFeature enc (applyCertDefault u) "certifications" = Dyadic.ofInt 0) := by
  have hE : validationErrors u = [] := by
    simp [validationErrors, h1, h2, h3, h4, h5, h6]
  have hA : (applyCertDefault u).certifications = "None" := by
    simp [applyCertDefault, hc]
  exact ⟨hE, hA, by simp [runAnalysis, hE], fun enc => by simp [resolveSalaryFeature, hA]⟩

/-- Witness for C10 at a concrete profile with only certifications left at the
placeholder. -/
theorem certifications_placeholder_accepted_witness :
    validationErrors c10Profile = []
  ∧ (applyCertDefault c10Profile).certifications = "None"
  ∧ (∀ enc, resolveSalaryFeature enc (applyCertDefault c10Profile) "certifications" = Dyadic.ofInt 0) := by
  obtain ⟨w1, w2, _, w4⟩ := certifications_placeholder_accepted noArtifacts c10Profile rfl
    (by decide) (by decide) (by decide) (by decide) (by decide) (by decide)
  exact ⟨w1, w2, w4⟩

end PivotPath
